import Mathlib

/-!
# Truthlinked SDK — request-authentication subsystem, shallow embedding

A shallow embedding of `src/crypto.ts` of the Truthlinked TypeScript SDK:
the `RequestSigner` (HMAC-SHA256 request signing and verification), the
`SecureLicenseKey` credential handle, and the `constantTimeEqual` helper,
together with the Node.js primitives they call (`crypto.createHmac`,
`crypto.timingSafeEqual`, `Buffer.from(·, 'base64')`,
`Buffer#toString('base64')`, UTF-8 encoding of JavaScript strings, and
`JSON.stringify` on a JSON value model).

Bytes are `Nat`s below 256; 32-bit words are `Nat`s reduced `% 2^32` at
every arithmetic step, as in the SHA-256 reference. Fallible Node calls
(`timingSafeEqual` throws a `RangeError` on unequal buffer lengths) are
modelled with `Except String`.
-/

namespace Truthlinked

/-- Number of UTF-16 code units a character occupies in a JavaScript
string (astral-plane characters are surrogate pairs, hence 2). -/
def charUtf16Units (c : Char) : Nat :=
  if c.toNat < 65536 then 1 else 2

/-- JavaScript `String#length`: the UTF-16 code-unit count. -/
def jsStringLength (s : String) : Nat :=
  (s.data.map charUtf16Units).sum

/-- UTF-8 encoding of one Unicode scalar value, as `Buffer.from(str)`
produces it. -/
def charUtf8Bytes (c : Char) : List Nat :=
  let n := c.toNat
  if n < 128 then [n]
  else if n < 2048 then [192 + n / 64, 128 + n % 64]
  else if n < 65536 then [224 + n / 4096, 128 + (n / 64) % 64, 128 + n % 64]
  else [240 + n / 262144, 128 + (n / 4096) % 64, 128 + (n / 64) % 64, 128 + n % 64]

/-- UTF-8 bytes of a string: Node's `Buffer.from(s)` / `hmac.update(s)`. -/
def utf8Encode (s : String) : List Nat :=
  (s.data.map charUtf8Bytes).flatten

/-- JavaScript `String#toUpperCase` restricted to the ASCII range, which
is all the HTTP-method callers exercise. -/
def jsToUpperCase (s : String) : String :=
  String.mk (s.data.map Char.toUpper)

/-! ## Base64 (`Buffer#toString('base64')` / `Buffer.from(·, 'base64')`) -/

/-- The standard base64 alphabet. -/
def base64Alphabet : String :=
  "ABCDEFGHIJKLMNOPQRSTUVWXYZabcdefghijklmnopqrstuvwxyz0123456789+/"

/-- Character for a sextet (junk inputs ≥ 64 fall back to the default,
they never arise from well-formed encoding). -/
def b64char (n : Nat) : Char :=
  base64Alphabet.data.getD n 'A'

/-- Sextet value of an alphabet character. -/
def b64val (c : Char) : Nat :=
  base64Alphabet.data.indexOf c

/-- Encode a byte list three bytes at a time, padding with `=` as
`Buffer#toString('base64')` does. -/
def b64chunkChars : List Nat → List Char
  | a :: b :: c :: rest =>
      b64char (a / 4) :: b64char ((a % 4) * 16 + b / 16) ::
      b64char ((b % 16) * 4 + c / 64) :: b64char (c % 64) :: b64chunkChars rest
  | [a, b] => [b64char (a / 4), b64char ((a % 4) * 16 + b / 16), b64char ((b % 16) * 4), '=']
  | [a] => [b64char (a / 4), b64char ((a % 4) * 16), '=', '=']
  | [] => []

/-- `Buffer#toString('base64')`. -/
def b64encode (bs : List Nat) : String :=
  String.mk (b64chunkChars bs)

/-- Reassemble bytes from sextets, four sextets to three bytes; a
two-sextet tail yields one byte and a three-sextet tail two, as Node's
forgiving decoder does after stripping padding. -/
def sextetsToBytes : List Nat → List Nat
  | s0 :: s1 :: s2 :: s3 :: rest =>
      (s0 * 4 + s1 / 16) :: ((s1 % 16) * 16 + s2 / 4) :: ((s2 % 4) * 64 + s3) ::
      sextetsToBytes rest
  | [s0, s1] => [s0 * 4 + s1 / 16]
  | [s0, s1, s2] => [s0 * 4 + s1 / 16, (s1 % 16) * 16 + s2 / 4]
  | _ => []

/-- `Buffer.from(s, 'base64')`: non-alphabet characters (including the
`=` padding) are skipped, the rest decode as sextets. It never throws. -/
def b64decode (s : String) : List Nat :=
  sextetsToBytes ((s.data.filter (fun c => decide (c ∈ base64Alphabet.data))).map b64val)

/-! ## `crypto.timingSafeEqual` -/

/-- Node's `crypto.timingSafeEqual(a, b)`: throws a `RangeError` when the
buffers have different lengths, otherwise reports equality through an
accumulated bitwise difference over all positions. -/
def timingSafeEqual (a b : List Nat) : Except String Bool :=
  if a.length = b.length then
    .ok (decide ((a.zip b).foldl (fun acc p => acc ||| (p.1 ^^^ p.2)) 0 = 0))
  else
    .error "Input buffers must have the same byte length"

/-! ## SHA-256 (`crypto.createHash('sha256')` / the hash inside `createHmac`) -/

/-- Reduce to a 32-bit word. -/
def w32 (x : Nat) : Nat := x % 4294967296

/-- Right rotation of a 32-bit word. -/
def rotr (n x : Nat) : Nat := w32 (x / 2 ^ n + x % 2 ^ n * 2 ^ (32 - n))

/-- Logical right shift. -/
def shr (n x : Nat) : Nat := x / 2 ^ n

/-- SHA-256 `Ch`. -/
def shaCh (x y z : Nat) : Nat := (x &&& y) ^^^ ((x ^^^ 4294967295) &&& z)

/-- SHA-256 `Maj`. -/
def shaMaj (x y z : Nat) : Nat := (x &&& y) ^^^ (x &&& z) ^^^ (y &&& z)

/-- SHA-256 `Σ₀`. -/
def bigSigma0 (x : Nat) : Nat := rotr 2 x ^^^ rotr 13 x ^^^ rotr 22 x

/-- SHA-256 `Σ₁`. -/
def bigSigma1 (x : Nat) : Nat := rotr 6 x ^^^ rotr 11 x ^^^ rotr 25 x

/-- SHA-256 `σ₀`. -/
def smallSigma0 (x : Nat) : Nat := rotr 7 x ^^^ rotr 18 x ^^^ shr 3 x

/-- SHA-256 `σ₁`. -/
def smallSigma1 (x : Nat) : Nat := rotr 17 x ^^^ rotr 19 x ^^^ shr 10 x

/-- The 64 SHA-256 round constants, in decimal. -/
def shaK : List Nat :=
  [1116352408, 1899447441, 3049323471, 3921009573, 961987163, 1508970993,
   2453635748, 2870763221, 3624381080, 310598401, 607225278, 1426881987,
   1925078388, 2162078206, 2614888103, 3248222580, 3835390401, 4022224774,
   264347078, 604807628, 770255983, 1249150122, 1555081692, 1996064986,
   2554220882, 2821834349, 2952996808, 3210313671, 3336571891, 3584528711,
   113926993, 338241895, 666307205, 773529912, 1294757372, 1396182291,
   1695183700, 1986661051, 2177026350, 2456956037, 2730485921, 2820302411,
   3259730800, 3345764771, 3516065817, 3600352804, 4094571909, 275423344,
   430227734, 506948616, 659060556, 883997877, 958139571, 1322822218,
   1537002063, 1747873779, 1955562222, 2024104815, 2227730452, 2361852424,
   2428436474, 2756734187, 3204031479, 3329325298]

/-- The eight-word SHA-256 chaining state. -/
structure Sha256State where
  h0 : Nat
  h1 : Nat
  h2 : Nat
  h3 : Nat
  h4 : Nat
  h5 : Nat
  h6 : Nat
  h7 : Nat
deriving DecidableEq

/-- The SHA-256 initial hash value, in decimal. -/
def shaInit : Sha256State :=
  ⟨1779033703, 3144134277, 1013904242, 2773480762,
   1359893119, 2600822924, 528734635, 1541459225⟩

/-- Merkle–Damgård padding: `0x80`, zeros to 56 mod 64, then the bit
length as eight big-endian bytes. -/
def shaPad (msg : List Nat) : List Nat :=
  let len := msg.length
  let bitLen := (8 * len) % 2 ^ 64
  msg ++ [128] ++ List.replicate ((119 - len % 64) % 64) 0 ++
    [bitLen / 2 ^ 56 % 256, bitLen / 2 ^ 48 % 256, bitLen / 2 ^ 40 % 256, bitLen / 2 ^ 32 % 256,
     bitLen / 2 ^ 24 % 256, bitLen / 2 ^ 16 % 256, bitLen / 2 ^ 8 % 256, bitLen % 256]

/-- Big-endian 4-byte groups to 32-bit words. -/
def bytesToWords : List Nat → List Nat
  | a :: b :: c :: d :: rest => (((a * 256 + b) * 256 + c) * 256 + d) :: bytesToWords rest
  | _ => []

/-- Split a byte list into 64-byte blocks. -/
def chunks64 (l : List Nat) : List (List Nat) :=
  if h : l = [] then []
  else l.take 64 :: chunks64 (l.drop 64)
termination_by l.length
decreasing_by
  simp only [List.length_drop]
  have hp : 0 < l.length := List.length_pos.mpr h
  omega

/-- Extend the 16 block words by `n` further schedule words. -/
def extendSchedule (ws : List Nat) : Nat → List Nat
  | 0 => ws
  | n + 1 =>
      let prev := extendSchedule ws n
      let len := prev.length
      prev ++ [w32 (smallSigma1 (prev.getD (len - 2) 0) + prev.getD (len - 7) 0 +
                    smallSigma0 (prev.getD (len - 15) 0) + prev.getD (len - 16) 0)]

/-- The 64-word message schedule of one block. -/
def shaSchedule (block : List Nat) : List Nat :=
  extendSchedule (bytesToWords block) 48

/-- One SHA-256 compression round. -/
def shaRound (ws : List Nat) (st : Sha256State) (i : Nat) : Sha256State :=
  let t1 := w32 (st.h7 + bigSigma1 st.h4 + shaCh st.h4 st.h5 st.h6 + shaK.getD i 0 + ws.getD i 0)
  let t2 := w32 (bigSigma0 st.h0 + shaMaj st.h0 st.h1 st.h2)
  ⟨w32 (t1 + t2), st.h0, st.h1, st.h2, w32 (st.h3 + t1), st.h4, st.h5, st.h6⟩

/-- Compress one 64-byte block into the chaining state. -/
def shaCompress (st : Sha256State) (block : List Nat) : Sha256State :=
  let ws := shaSchedule block
  let f := (List.range 64).foldl (shaRound ws) st
  ⟨w32 (st.h0 + f.h0), w32 (st.h1 + f.h1), w32 (st.h2 + f.h2), w32 (st.h3 + f.h3),
   w32 (st.h4 + f.h4), w32 (st.h5 + f.h5), w32 (st.h6 + f.h6), w32 (st.h7 + f.h7)⟩

/-- Big-endian bytes of a 32-bit word. -/
def wordBytes (w : Nat) : List Nat :=
  [w / 2 ^ 24 % 256, w / 2 ^ 16 % 256, w / 2 ^ 8 % 256, w % 256]

/-- SHA-256 of a byte list. -/
def sha256 (msg : List Nat) : List Nat :=
  let st := (chunks64 (shaPad msg)).foldl shaCompress shaInit
  wordBytes st.h0 ++ wordBytes st.h1 ++ wordBytes st.h2 ++ wordBytes st.h3 ++
  wordBytes st.h4 ++ wordBytes st.h5 ++ wordBytes st.h6 ++ wordBytes st.h7

/-! ## HMAC-SHA256 (`crypto.createHmac('sha256', key)`) -/

/-- HMAC-SHA256 over byte lists (RFC 2104 with a 64-byte block). -/
def hmacSha256 (key msg : List Nat) : List Nat :=
  let k0 := if key.length > 64 then sha256 key else key
  let kp := k0 ++ List.replicate (64 - k0.length) 0
  sha256 ((kp.map (fun b => b ^^^ 92)) ++ sha256 ((kp.map (fun b => b ^^^ 54)) ++ msg))

/-! ## JSON bodies (`body?: any` and `JSON.stringify`) -/

/-- The JavaScript values a request body can be, restricted to the
scalar JSON values (numbers as integers; the SDK's own tests pass
`null`, and the spec flags canonicalization of structured bodies as an
open question no claim depends on). -/
inductive JsValue where
  | null : JsValue
  | bool : Bool → JsValue
  | num : Int → JsValue
  | str : String → JsValue
deriving DecidableEq

/-- JavaScript truthiness of a body value, as tested by `body ? … : …`. -/
def jsTruthy : JsValue → Bool
  | .null => false
  | .bool b => b
  | .num n => decide (n ≠ 0)
  | .str s => decide (s ≠ "")

/-- One lowercase hexadecimal digit. -/
def hexDigit (n : Nat) : Char :=
  "0123456789abcdef".data.getD n '0'

/-- `JSON.stringify` escaping of one character inside a string literal. -/
def jsonEscapeChar (c : Char) : List Char :=
  if c = '"' then ['\\', '"']
  else if c = '\\' then ['\\', '\\']
  else if c = '\n' then ['\\', 'n']
  else if c = '\r' then ['\\', 'r']
  else if c = '\t' then ['\\', 't']
  else if c.toNat = 8 then ['\\', 'b']
  else if c.toNat = 12 then ['\\', 'f']
  else if c.toNat < 32 then ['\\', 'u', '0', '0', hexDigit (c.toNat / 16), hexDigit (c.toNat % 16)]
  else [c]

/-- `JSON.stringify` on the modelled values. -/
def jsonStringify : JsValue → String
  | .null => "null"
  | .bool true => "true"
  | .bool false => "false"
  | .num n => toString n
  | .str s => String.mk ('"' :: (s.data.map jsonEscapeChar).flatten ++ ['"'])

/-- The body text fed into the canonical message:
`body ? JSON.stringify(body) : ''`, with an absent argument behaving as
`undefined` (falsy). -/
def bodyText : Option JsValue → String
  | none => ""
  | some v => cond (jsTruthy v) (jsonStringify v) ""

/-! ## `RequestSigner` -/

/-- The canonical signing message
`` `${method}\n${path}\n${timestamp}\n${bodyStr}` `` — the timestamp is
already decimal text at this point, in `verify` it arrives as a string
parameter. -/
def canonicalMessage (method path timestamp body : String) : String :=
  method ++ "\n" ++ path ++ "\n" ++ timestamp ++ "\n" ++ body

/-- A `RequestSigner` instance: it owns only the derived signing key. -/
structure RequestSigner where
  signingKey : List Nat
deriving DecidableEq

/-- The `RequestSigner` constructor: the signing key is the HMAC-SHA256
of the license key under the fixed domain-separation label. -/
def RequestSigner.create (licenseKey : String) : RequestSigner :=
  ⟨hmacSha256 (utf8Encode "truthlinked-request-signing-v1") (utf8Encode licenseKey)⟩

/-- The pair `sign` returns. -/
structure SignResult where
  timestamp : String
  signature : String
deriving DecidableEq

/-- `RequestSigner.sign(method, path, body?)`. The method has no
timestamp parameter; `nowMs` models the ambient `Date.now()` reading in
milliseconds, and the timestamp is `Math.floor(Date.now() / 1000)` as
decimal text. -/
def RequestSigner.sign (s : RequestSigner) (nowMs : Nat) (method path : String)
    (body : Option JsValue) : SignResult :=
  let timestamp := toString (nowMs / 1000)
  let message := canonicalMessage method path timestamp (bodyText body)
  { timestamp := timestamp
    signature := b64encode (hmacSha256 s.signingKey (utf8Encode message)) }

/-- `RequestSigner.verify(method, path, body, signature, timestamp)`:
recompute the expected signature and compare the base64 decodings with
`crypto.timingSafeEqual` (which throws on a byte-length mismatch). -/
def RequestSigner.verify (s : RequestSigner) (method path body signature timestamp : String) :
    Except String Bool :=
  let message := canonicalMessage method path timestamp body
  let expected := b64encode (hmacSha256 s.signingKey (utf8Encode message))
  timingSafeEqual (b64decode signature) (b64decode expected)

/-- `RequestSigner.destroy()`: `this.signingKey.fill(0)` overwrites every
byte of the retained buffer with zero, keeping its length. -/
def RequestSigner.destroy (s : RequestSigner) : RequestSigner :=
  ⟨List.replicate s.signingKey.length 0⟩

/-! ## `SecureLicenseKey` -/

/-- The credential handle: it owns the raw key string. -/
structure SecureLicenseKey where
  key : String
deriving DecidableEq

/-- The `SecureLicenseKey` constructor stores the key unvalidated. -/
def SecureLicenseKey.create (key : String) : SecureLicenseKey :=
  ⟨key⟩

/-- `asString()` returns the raw stored value. -/
def SecureLicenseKey.asString (k : SecureLicenseKey) : String :=
  k.key

/-- `'\0'.repeat(n)`. -/
def nullRepeat (n : Nat) : String :=
  String.mk (List.replicate n (Char.ofNat 0))

/-- `destroy()`: `this.key = '\0'.repeat(this.key.length)` — the length
is JavaScript's UTF-16 code-unit count. -/
def SecureLicenseKey.destroy (k : SecureLicenseKey) : SecureLicenseKey :=
  ⟨nullRepeat (jsStringLength k.key)⟩

/-! ## `constantTimeEqual` -/

/-- `constantTimeEqual(a, b)`: an early `false` on unequal JavaScript
string lengths, otherwise `crypto.timingSafeEqual` over the UTF-8 bytes
— which throws when equal-length strings encode to different byte
counts. -/
def constantTimeEqual (a b : String) : Except String Bool :=
  if jsStringLength a = jsStringLength b then
    timingSafeEqual (utf8Encode a) (utf8Encode b)
  else
    .ok false

/-! ## The spec's canonical message, for refinement comparison -/

/-- Modelled from the spec: `Canonical message = UPPERCASE(method) +
"\n" + path + "\n" + decimal(timestamp) + "\n" + body_or_empty` — the
spec's claim about what `sign` feeds the keyed hash, to be compared with
`canonicalMessage` as the code computes it. -/
def specCanonicalMessage (method path : String) (timestampSecs : Nat)
    (body : Option JsValue) : String :=
  jsToUpperCase method ++ "\n" ++ path ++ "\n" ++ toString timestampSecs ++ "\n" ++ bodyText body

/-! ## Basic lemmas about the primitives -/

/-- SHA-256 digests are 32 bytes, whatever the input. -/
theorem sha256_length (msg : List Nat) : (sha256 msg).length = 32 := by
  simp [sha256, wordBytes]

/-- HMAC-SHA256 digests are 32 bytes. -/
theorem hmacSha256_length (key msg : List Nat) : (hmacSha256 key msg).length = 32 := by
  simp [hmacSha256, sha256_length]

/-- Every character the base64 encoder emits for a sextet is in the
alphabet. -/
theorem b64char_mem (n : Nat) : b64char n ∈ base64Alphabet.data := by
  unfold b64char
  by_cases h : n < base64Alphabet.data.length
  · rw [List.getD_eq_getElem _ _ h]
    exact List.getElem_mem h
  · rw [List.getD_eq_default _ _ (Nat.le_of_not_lt h)]
    decide

/-- `timingSafeEqual` on one buffer and itself returns `true`: the
accumulated bitwise difference stays zero. -/
theorem timingSafeEqual_self (l : List Nat) : timingSafeEqual l l = .ok true := by
  unfold timingSafeEqual
  rw [if_pos rfl]
  have hz : ∀ t : List Nat, (t.zip t).foldl (fun acc p => acc ||| (p.1 ^^^ p.2)) 0 = 0 := by
    intro t
    induction t with
    | nil => rfl
    | cons x xs ih => simpa [List.zip_cons_cons, Nat.xor_self] using ih
  rw [hz]
  simp

/-- The accumulated difference is symmetric in the two buffers. -/
theorem zip_fold_comm (a b : List Nat) (acc : Nat) :
    (a.zip b).foldl (fun acc p => acc ||| (p.1 ^^^ p.2)) acc =
    (b.zip a).foldl (fun acc p => acc ||| (p.1 ^^^ p.2)) acc := by
  induction a generalizing b acc with
  | nil => cases b <;> rfl
  | cons x xs ih =>
      cases b with
      | nil => rfl
      | cons y ys => simpa [List.zip_cons_cons, Nat.xor_comm x y] using ih ys (acc ||| (x ^^^ y))

/-- `timingSafeEqual` is symmetric, thrown fault included. -/
theorem timingSafeEqual_comm (a b : List Nat) :
    timingSafeEqual a b = timingSafeEqual b a := by
  unfold timingSafeEqual
  by_cases h : a.length = b.length
  · rw [if_pos h, if_pos h.symm, zip_fold_comm]
  · rw [if_neg h, if_neg (fun hh => h hh.symm)]

/-- Decoding an encoder output recovers exactly as many bytes as were
encoded (the padding is stripped, every other emitted character is an
alphabet character). -/
theorem b64decode_b64encode_length (bs : List Nat) :
    (b64decode (b64encode bs)).length = bs.length := by
  show (sextetsToBytes (((b64chunkChars bs).filter
        (fun c => decide (c ∈ base64Alphabet.data))).map b64val)).length = bs.length
  induction bs using b64chunkChars.induct with
  | case1 a b c rest ih =>
      rw [b64chunkChars]
      rw [List.filter_cons_of_pos (by simpa using b64char_mem (a / 4)),
          List.filter_cons_of_pos (by simpa using b64char_mem ((a % 4) * 16 + b / 16)),
          List.filter_cons_of_pos (by simpa using b64char_mem ((b % 16) * 4 + c / 64)),
          List.filter_cons_of_pos (by simpa using b64char_mem (c % 64))]
      simp only [List.map_cons, sextetsToBytes, List.length_cons]
      omega
  | case2 a b =>
      rw [b64chunkChars]
      rw [List.filter_cons_of_pos (by simpa using b64char_mem (a / 4)),
          List.filter_cons_of_pos (by simpa using b64char_mem ((a % 4) * 16 + b / 16)),
          List.filter_cons_of_pos (by simpa using b64char_mem ((b % 16) * 4)),
          List.filter_cons_of_neg (by decide)]
      rfl
  | case3 a =>
      rw [b64chunkChars]
      rw [List.filter_cons_of_pos (by simpa using b64char_mem (a / 4)),
          List.filter_cons_of_pos (by simpa using b64char_mem ((a % 4) * 16)),
          List.filter_cons_of_neg (by decide), List.filter_cons_of_neg (by decide)]
      rfl
  | case4 =>
      rfl

/-- The placeholder `'\0'.repeat(n)` has JavaScript length `n`. -/
theorem jsStringLength_nullRepeat (n : Nat) : jsStringLength (nullRepeat n) = n := by
  have hd : (nullRepeat n).data = List.replicate n (Char.ofNat 0) := rfl
  simp [jsStringLength, hd, List.map_replicate, charUtf16Units, List.sum_replicate]

/-! ## Canonical-message and round-trip lemmas -/

/-- With path, timestamp and body fixed, the canonical message determines
the method. -/
theorem canonicalMessage_method_inj {m₁ m₂ p ts b : String}
    (h : canonicalMessage m₁ p ts b = canonicalMessage m₂ p ts b) : m₁ = m₂ := by
  have hd : m₁.data ++ ("\n".data ++ (p.data ++ ("\n".data ++ (ts.data ++ ("\n".data ++ b.data))))) =
      m₂.data ++ ("\n".data ++ (p.data ++ ("\n".data ++ (ts.data ++ ("\n".data ++ b.data))))) := by
    simpa [canonicalMessage, List.append_assoc] using congrArg String.data h
  exact String.ext (List.append_cancel_right hd)

/-- With method, timestamp and body fixed, the canonical message
determines the path. -/
theorem canonicalMessage_path_inj {m p₁ p₂ ts b : String}
    (h : canonicalMessage m p₁ ts b = canonicalMessage m p₂ ts b) : p₁ = p₂ := by
  have hd : m.data ++ ("\n".data ++ (p₁.data ++ ("\n".data ++ (ts.data ++ ("\n".data ++ b.data))))) =
      m.data ++ ("\n".data ++ (p₂.data ++ ("\n".data ++ (ts.data ++ ("\n".data ++ b.data))))) := by
    simpa [canonicalMessage, List.append_assoc] using congrArg String.data h
  exact String.ext (List.append_cancel_right
    (List.append_cancel_left (List.append_cancel_left hd)))

/-- With method, path and body fixed, the canonical message determines
the timestamp text. -/
theorem canonicalMessage_timestamp_inj {m p ts₁ ts₂ b : String}
    (h : canonicalMessage m p ts₁ b = canonicalMessage m p ts₂ b) : ts₁ = ts₂ := by
  have hd : m.data ++ ("\n".data ++ (p.data ++ ("\n".data ++ (ts₁.data ++ ("\n".data ++ b.data))))) =
      m.data ++ ("\n".data ++ (p.data ++ ("\n".data ++ (ts₂.data ++ ("\n".data ++ b.data))))) := by
    simpa [canonicalMessage, List.append_assoc] using congrArg String.data h
  exact String.ext (List.append_cancel_right
    (List.append_cancel_left (List.append_cancel_left
      (List.append_cancel_left (List.append_cancel_left hd)))))

/-- `verify` accepts what `sign` produced, for the same signer, method,
path and canonical body text: the recomputed message is the signed one,
so both decodings coincide and the comparison succeeds. -/
theorem verify_sign_ok (s : RequestSigner) (nowMs : Nat) (method path : String)
    (body : Option JsValue) :
    s.verify method path (bodyText body) ((s.sign nowMs method path body).signature)
      ((s.sign nowMs method path body).timestamp) = .ok true :=
  timingSafeEqual_self _

/-- A signature whose base64 decoding is not 32 bytes long makes
`verify` throw: `timingSafeEqual` raises a `RangeError` on the length
mismatch with the 32-byte expected digest. -/
theorem verify_decode_length_error (s : RequestSigner)
    (method path body signature timestamp : String)
    (h : (b64decode signature).length ≠ 32) :
    s.verify method path body signature timestamp =
      .error "Input buffers must have the same byte length" := by
  show timingSafeEqual (b64decode signature)
      (b64decode (b64encode (hmacSha256 s.signingKey
        (utf8Encode (canonicalMessage method path timestamp body))))) = _
  unfold timingSafeEqual
  rw [if_neg]
  intro hh
  apply h
  rw [hh, b64decode_b64encode_length, hmacSha256_length]

/-! ## The claims -/

/-- C1: for every signer instance, clock reading, method, path and body,
verifying the canonical body text against the signature and timestamp
returned by `sign` on the same instance yields `true`. -/
theorem claim_C1_sign_verify_roundtrip (s : RequestSigner) (nowMs : Nat)
    (method path : String) (body : Option JsValue) :
    s.verify method path (bodyText body) ((s.sign nowMs method path body).signature)
      ((s.sign nowMs method path body).timestamp) = .ok true :=
  verify_sign_ok s nowMs method path body

/-- C2 counterexample: `verify` is claimed never to throw, but on a
supplied signature whose base64 decoding is shorter than 32 bytes
(`"AAAA"` decodes to 3 bytes) `crypto.timingSafeEqual` throws a
`RangeError` instead of returning `false`. -/
theorem claim_C2_counterexample :
    (RequestSigner.create "test_key").verify "GET" "/test" "" "AAAA" "1" =
      .error "Input buffers must have the same byte length" :=
  verify_decode_length_error _ _ _ _ _ _ (by decide)

/-- C2 amended: `verify` yields a boolean — `true`/`false` by byte
comparison, never a thrown fault — only when the supplied signature
decodes to the expected 32 bytes; when the decoded lengths differ it
throws instead of returning `false` (base64 decoding itself never
fails). -/
theorem claim_C2_amended (s : RequestSigner)
    (method path body signature timestamp : String)
    (h : (b64decode signature).length = 32) :
    (s.verify method path body signature timestamp).isOk = true := by
  show (timingSafeEqual (b64decode signature)
      (b64decode (b64encode (hmacSha256 s.signingKey
        (utf8Encode (canonicalMessage method path timestamp body)))))).isOk = true
  unfold timingSafeEqual
  rw [if_pos (by rw [h, b64decode_b64encode_length, hmacSha256_length])]
  rfl

/-- Witness for C2 amended: a 44-character padded base64 text decodes to
32 bytes and `verify` returns a boolean on it. -/
theorem claim_C2_witness :
    ((RequestSigner.create "test_key").verify "GET" "/test" ""
      "AAAAAAAAAAAAAAAAAAAAAAAAAAAAAAAAAAAAAAAAAAA=" "1").isOk = true :=
  claim_C2_amended (RequestSigner.create "test_key") "GET" "/test" ""
    "AAAAAAAAAAAAAAAAAAAAAAAAAAAAAAAAAAAAAAAAAAA=" "1" (by decide)

/-- C3 counterexample: for the lower-case method `"get"`, the message
`sign` feeds the keyed hash keeps the method as given, which differs
from the spec's upper-cased canonical form. -/
theorem claim_C3_counterexample :
    ((RequestSigner.create "test_key").sign 1000 "get" "/test" none).signature =
      b64encode (hmacSha256 (RequestSigner.create "test_key").signingKey
        (utf8Encode (canonicalMessage "get" "/test" "1" (bodyText none)))) ∧
    canonicalMessage "get" "/test" "1" (bodyText none) ≠
      specCanonicalMessage "get" "/test" 1 none :=
  ⟨rfl, by decide⟩

/-- C3 amended: the canonical message joins the method exactly as
passed, the path, the decimal timestamp and the body-or-empty text with
newlines; no upper-casing happens inside `sign` — the spec's up-cased
form is obtained precisely when the caller (as the HTTP client does)
upper-cases the method before calling. -/
theorem claim_C3_amended (s : RequestSigner) (nowMs : Nat) (method path : String)
    (body : Option JsValue) :
    (s.sign nowMs method path body).signature =
      b64encode (hmacSha256 s.signingKey
        (utf8Encode (canonicalMessage method path (toString (nowMs / 1000)) (bodyText body)))) ∧
    canonicalMessage (jsToUpperCase method) path (toString (nowMs / 1000)) (bodyText body) =
      specCanonicalMessage method path (nowMs / 1000) body :=
  ⟨rfl, rfl⟩

/-- C4 counterexample: `sign` has no timestamp parameter — a value
passed in the third position is the body: the returned timestamp is the
clock reading, not the supplied `1234`, which lands in the body slot of
the canonical message. -/
theorem claim_C4_counterexample :
    ((RequestSigner.create "test_key").sign 5000000 "GET" "/test"
        (some (JsValue.num 1234))).timestamp = "5000" ∧
    ("5000" : String) ≠ "1234" ∧
    ((RequestSigner.create "test_key").sign 5000000 "GET" "/test"
        (some (JsValue.num 1234))).signature =
      b64encode (hmacSha256 (RequestSigner.create "test_key").signingKey
        (utf8Encode "GET\n/test\n5000\n1234")) := by
  refine ⟨rfl, by decide, ?_⟩
  have hmsg : "GET\n/test\n5000\n1234" = canonicalMessage "GET" "/test"
      (toString (5000000 / 1000 : Nat)) (bodyText (some (JsValue.num 1234))) := by decide
  rw [hmsg]
  rfl

/-- C4 amended: `sign` takes no timestamp argument; the timestamp is
always the current time in whole seconds since epoch, and the output is
a function of the signer, that whole-second reading, method, path and
body — so two calls within the same whole second yield identical
timestamps and signatures. -/
theorem claim_C4_amended (s : RequestSigner) (now₁ now₂ : Nat) (method path : String)
    (body : Option JsValue) (h : now₁ / 1000 = now₂ / 1000) :
    s.sign now₁ method path body = s.sign now₂ method path body ∧
    (s.sign now₁ method path body).timestamp = toString (now₁ / 1000) := by
  constructor
  · unfold RequestSigner.sign
    rw [h]
  · rfl

/-- Witness for C4 amended: two clock readings in the same whole second
give the same signed result. -/
theorem claim_C4_witness :
    (RequestSigner.create "test_key").sign 5000 "GET" "/test" none =
      (RequestSigner.create "test_key").sign 5999 "GET" "/test" none ∧
    ((RequestSigner.create "test_key").sign 5000 "GET" "/test" none).timestamp =
      toString (5000 / 1000 : Nat) :=
  claim_C4_amended (RequestSigner.create "test_key") 5000 5999 "GET" "/test" none (by decide)

/-- C5 counterexample: a present body that is falsy (here `null`)
serializes to the empty text exactly like an absent body, so the two
sign inputs differ in the body field yet produce identical
signatures. -/
theorem claim_C5_counterexample :
    (some JsValue.null ≠ (none : Option JsValue)) ∧
    ((RequestSigner.create "test_key").sign 0 "GET" "/test" (some JsValue.null)).signature =
      ((RequestSigner.create "test_key").sign 0 "GET" "/test" none).signature :=
  ⟨by simp, rfl⟩

/-- C5 amended: changing exactly one of method, path or timestamp
changes the canonical message fed to the keyed hash (so the signatures
differ unless the keyed hash collides on the two messages); for the body
field, `sign` depends only on the serialized body text, and a present
falsy body serializes to the same empty text as an absent body, giving
the same signature. -/
theorem claim_C5_amended :
    (∀ m₁ m₂ p ts b : String, m₁ ≠ m₂ →
      canonicalMessage m₁ p ts b ≠ canonicalMessage m₂ p ts b) ∧
    (∀ m p₁ p₂ ts b : String, p₁ ≠ p₂ →
      canonicalMessage m p₁ ts b ≠ canonicalMessage m p₂ ts b) ∧
    (∀ m p ts₁ ts₂ b : String, ts₁ ≠ ts₂ →
      canonicalMessage m p ts₁ b ≠ canonicalMessage m p ts₂ b) ∧
    (∀ (s : RequestSigner) (nowMs : Nat) (m p : String) (b₁ b₂ : Option JsValue),
      bodyText b₁ = bodyText b₂ → s.sign nowMs m p b₁ = s.sign nowMs m p b₂) := by
  refine ⟨?_, ?_, ?_, ?_⟩
  · intro _ _ _ _ _ hne h
    exact hne (canonicalMessage_method_inj h)
  · intro _ _ _ _ _ hne h
    exact hne (canonicalMessage_path_inj h)
  · intro _ _ _ _ _ hne h
    exact hne (canonicalMessage_timestamp_inj h)
  · intro s nowMs m p b₁ b₂ h
    unfold RequestSigner.sign
    rw [h]

/-- Witness for C5 amended: two methods differing as in the SDK's own
test give different canonical messages. -/
theorem claim_C5_witness :
    canonicalMessage "GET" "/test" "1" "" ≠ canonicalMessage "POST" "/test" "1" "" :=
  claim_C5_amended.1 "GET" "POST" "/test" "1" "" (by decide)

/-- C6: after `destroy()` the credential handle returns a placeholder of
the original's JavaScript length, never the original (non-placeholder)
secret, and a second `destroy()` changes nothing. -/
theorem claim_C6_destroy_lifecycle (key : String)
    (h : key ≠ nullRepeat (jsStringLength key)) :
    jsStringLength ((SecureLicenseKey.create key).destroy.asString) = jsStringLength key ∧
    (SecureLicenseKey.create key).destroy.asString ≠ key ∧
    (SecureLicenseKey.create key).destroy.destroy = (SecureLicenseKey.create key).destroy := by
  refine ⟨jsStringLength_nullRepeat _, fun hh => h hh.symm, ?_⟩
  exact congrArg (fun n => SecureLicenseKey.mk (nullRepeat n))
    (jsStringLength_nullRepeat (jsStringLength key))

/-- Witness for C6 at the SDK's own test credential. -/
theorem claim_C6_witness :
    jsStringLength ((SecureLicenseKey.create "test_key").destroy.asString) =
      jsStringLength "test_key" ∧
    (SecureLicenseKey.create "test_key").destroy.asString ≠ "test_key" ∧
    (SecureLicenseKey.create "test_key").destroy.destroy =
      (SecureLicenseKey.create "test_key").destroy :=
  claim_C6_destroy_lifecycle "test_key" (by decide)

/-- C7 counterexample: the constructors are claimed to reject an empty
credential, but both accept it silently — the handle stores the empty
string and the signer proceeds with a well-formed 32-byte key derived
from it. -/
theorem claim_C7_counterexample :
    (SecureLicenseKey.create "").asString = "" ∧
    (RequestSigner.create "").signingKey =
      hmacSha256 (utf8Encode "truthlinked-request-signing-v1") (utf8Encode "") ∧
    (RequestSigner.create "").signingKey.length = 32 :=
  ⟨rfl, rfl, hmacSha256_length _ _⟩

/-- C7 amended: construction performs no validation — every credential,
the empty string included, is stored as-is by `SecureLicenseKey` and fed
through the key derivation by `RequestSigner`, which always yields a
32-byte signing key. -/
theorem claim_C7_amended (key : String) :
    (SecureLicenseKey.create key).asString = key ∧
    (RequestSigner.create key).signingKey =
      hmacSha256 (utf8Encode "truthlinked-request-signing-v1") (utf8Encode key) ∧
    (RequestSigner.create key).signingKey.length = 32 :=
  ⟨rfl, rfl, hmacSha256_length _ _⟩

/-- C8: `constantTimeEqual` is reflexive and symmetric, and strings of
different JavaScript lengths compare `false` regardless of content. -/
theorem claim_C8_constantTimeEqual_props :
    (∀ a : String, constantTimeEqual a a = .ok true) ∧
    (∀ a b : String, constantTimeEqual a b = constantTimeEqual b a) ∧
    (∀ a b : String, jsStringLength a ≠ jsStringLength b →
      constantTimeEqual a b = .ok false) := by
  refine ⟨?_, ?_, ?_⟩
  · intro a
    unfold constantTimeEqual
    rw [if_pos rfl]
    exact timingSafeEqual_self _
  · intro a b
    unfold constantTimeEqual
    by_cases h : jsStringLength a = jsStringLength b
    · rw [if_pos h, if_pos h.symm, timingSafeEqual_comm]
    · rw [if_neg h, if_neg (fun hh => h hh.symm)]
  · intro a b h
    unfold constantTimeEqual
    rw [if_neg h]

/-- Witness for C8 at the SDK's own unequal-length test pair. -/
theorem claim_C8_witness : constantTimeEqual "test" "testing" = .ok false :=
  claim_C8_constantTimeEqual_props.2.2 "test" "testing" (by decide)

/-- C9 counterexample: after `destroy()` the claim promises `verify`
never faults, but a destroyed signer's `verify` still throws on a
signature whose decoding is not 32 bytes, exactly as before
destruction. -/
theorem claim_C9_counterexample :
    (RequestSigner.create "test_key").destroy.verify "GET" "/test" "" "AAAA" "1" =
      .error "Input buffers must have the same byte length" :=
  verify_decode_length_error _ _ _ _ _ _ (by decide)

/-- C9 amended: after `destroy()` the retained key buffer is all zero
bytes of the same length; a second `destroy()` is a no-op; `sign` and
`verify` silently operate under the all-zero key — a signature the
destroyed signer produces still verifies — while `verify` faults exactly
as before destruction on decoded-length mismatches. -/
theorem claim_C9_amended (s : RequestSigner) :
    s.destroy.signingKey = List.replicate s.signingKey.length 0 ∧
    s.destroy.destroy = s.destroy ∧
    (∀ (nowMs : Nat) (method path : String) (body : Option JsValue),
      s.destroy.verify method path (bodyText body)
        ((s.destroy.sign nowMs method path body).signature)
        ((s.destroy.sign nowMs method path body).timestamp) = .ok true) := by
  refine ⟨rfl, ?_, fun nowMs method path body => verify_sign_ok _ nowMs method path body⟩
  unfold RequestSigner.destroy
  simp

/-- C10: `constantTimeEqual` throws on two distinct strings of equal
JavaScript length whose UTF-8 encodings have different byte lengths —
a two-byte character against a one-byte one. -/
theorem claim_C10_multibyte_throw :
    ("é" : String) ≠ "a" ∧
    jsStringLength "é" = jsStringLength "a" ∧
    (utf8Encode "é").length ≠ (utf8Encode "a").length ∧
    constantTimeEqual "é" "a" = .error "Input buffers must have the same byte length" :=
  ⟨by decide, by decide, by decide, rfl⟩

end Truthlinked
